import Mathlib

/-!
Verification of the context-aware suggestion engine
(`context_aware_engine.py`): fuzzy primitives, vectorizers, context
builder and suggestion scorer are embedded shallowly over `ℚ`, and the
spec's testable properties are settled against that embedding.
-/

namespace Engine

/-! ## Fuzzy primitives (`fuzzy_membership`, `add_with_diminishing`,
`subtract_with_diminishing`)

Python's binary `max`/`min` are embedded as executable conditionals so
that concrete runs reduce inside the kernel. -/

/-- Python `max(a, b)`. -/
def pymax (a b : ℚ) : ℚ := if a ≤ b then b else a

/-- Python `min(a, b)`. -/
def pymin (a b : ℚ) : ℚ := if a ≤ b then a else b

lemma pymax_eq_max (a b : ℚ) : pymax a b = max a b := by
  rw [pymax, max_def]

lemma pymin_eq_min (a b : ℚ) : pymin a b = min a b := by
  rw [pymin, min_def]

/-- Triangular fuzzy membership: `max(0.0, min(1.0, 1.0 - |value-center|/width))`. -/
def fuzzy_membership (value center width : ℚ) : ℚ :=
  pymax 0 (pymin 1 (1 - |value - center| / width))

/-- Source `add_with_diminishing(current, increment, factor=0.7)`: clamps `current`
to [0,1], then adds `increment * headroom * factor` where `headroom` is
`1 - current`. The source's default `factor` is `0.7`; it is passed
explicitly here. -/
def add_with_diminishing (current increment factor : ℚ) : ℚ :=
  pymax 0 (pymin 1 current) + increment * (1 - pymax 0 (pymin 1 current)) * factor

/-- Source `subtract_with_diminishing(current, decrement, factor=0.7)`: clamps
`current` to [0,1], then subtracts `decrement * current * factor`. -/
def subtract_with_diminishing (current decrement factor : ℚ) : ℚ :=
  pymax 0 (pymin 1 current) - decrement * pymax 0 (pymin 1 current) * factor

lemma clamp_eq_self {x : ℚ} (h0 : 0 ≤ x) (h1 : x ≤ 1) : pymax 0 (pymin 1 x) = x := by
  rw [pymax_eq_max, pymin_eq_min, min_eq_right h1, max_eq_right h0]

lemma clamp_nonneg (x : ℚ) : 0 ≤ pymax 0 (pymin 1 x) := by
  rw [pymax_eq_max]; exact le_max_left 0 _

lemma clamp_le_one (x : ℚ) : pymax 0 (pymin 1 x) ≤ 1 := by
  rw [pymax_eq_max, pymin_eq_min]
  exact max_le (by norm_num) (min_le_left 1 x)

/-- C3: for `width > 0` the triangular membership is exactly 1 at the
center, exactly 0 once `|value - center| ≥ width`, equals the linear
interpolation `1 - |value-center|/width` strictly in between, and always
lies in `[0,1]`. -/
theorem C3_fuzzy_membership_spec (value center width : ℚ) (hw : 0 < width) :
    (value = center → fuzzy_membership value center width = 1) ∧
    (width ≤ |value - center| → fuzzy_membership value center width = 0) ∧
    (0 < |value - center| → |value - center| < width →
      fuzzy_membership value center width = 1 - |value - center| / width) ∧
    0 ≤ fuzzy_membership value center width ∧
    fuzzy_membership value center width ≤ 1 := by
  unfold fuzzy_membership
  rw [pymax_eq_max, pymin_eq_min]
  set d := |value - center| with hd
  refine ⟨?_, ?_, ?_, le_max_left 0 _, max_le (by norm_num) (min_le_left _ _)⟩
  · intro h
    have hz : d = 0 := by simp [hd, h]
    rw [hz]
    norm_num
  · intro h
    have h1 : 1 ≤ d / width := (one_le_div hw).mpr h
    have h2 : 1 - d / width ≤ 0 := by linarith
    rw [min_eq_right (by linarith), max_eq_left h2]
  · intro h1 h2
    have ha : d / width < 1 := (div_lt_one hw).mpr h2
    have hb : 0 < d / width := div_pos h1 hw
    rw [min_eq_right (by linarith), max_eq_right (by linarith)]

/-- C3 witness: the spec evaluated at `value = 1/2, center = 1/4, width = 1/2`. -/
theorem C3_fuzzy_membership_spec_witness :
    ((1:ℚ)/2 = 1/4 → fuzzy_membership (1/2) (1/4) (1/2) = 1) ∧
    ((1:ℚ)/2 ≤ |(1:ℚ)/2 - 1/4| → fuzzy_membership (1/2) (1/4) (1/2) = 0) ∧
    (0 < |(1:ℚ)/2 - 1/4| → |(1:ℚ)/2 - 1/4| < 1/2 →
      fuzzy_membership (1/2) (1/4) (1/2) = 1 - |(1:ℚ)/2 - 1/4| / (1/2)) ∧
    0 ≤ fuzzy_membership (1/2) (1/4) (1/2) ∧
    fuzzy_membership (1/2) (1/4) (1/2) ≤ 1 :=
  C3_fuzzy_membership_spec (1/2) (1/4) (1/2) (by norm_num)

/-- C4 counterexample: with `current = 0, increment = 2` the result `7/5`
escapes `[0,1]`, and with `current = 1, increment = 1` the result is
exactly `1`, not strictly below it, although the increment is nonzero. -/
theorem C4_counterexample :
    add_with_diminishing 0 2 (7/10) = 7/5 ∧
    ¬ add_with_diminishing 0 2 (7/10) ≤ 1 ∧
    add_with_diminishing 1 1 (7/10) = 1 ∧
    ¬ add_with_diminishing 1 1 (7/10) < 1 ∧
    ¬ ((1:ℚ) = 0) := by
  refine ⟨?_, ?_, ?_, ?_, ?_⟩ <;> norm_num [add_with_diminishing, pymax, pymin]

/-- C4 amended: for `current ∈ [0,1]` and `increment ≥ 0` the result is
`≥ current`; when moreover `increment ≤ 1` the result stays in `[0,1]` and
is strictly below 1 unless `current = 1`, in which case the result is
exactly 1 for every increment. -/
theorem C4_add_with_diminishing_bounds (current increment : ℚ)
    (h0 : 0 ≤ current) (h1 : current ≤ 1) (hi : 0 ≤ increment) :
    current ≤ add_with_diminishing current increment (7/10) ∧
    (increment ≤ 1 →
      0 ≤ add_with_diminishing current increment (7/10) ∧
      add_with_diminishing current increment (7/10) ≤ 1 ∧
      (current < 1 → add_with_diminishing current increment (7/10) < 1)) ∧
    (current = 1 → add_with_diminishing current increment (7/10) = 1) := by
  unfold add_with_diminishing
  rw [clamp_eq_self h0 h1]
  refine ⟨?_, fun hile => ⟨?_, ?_, fun hlt => ?_⟩, fun hc => ?_⟩
  · nlinarith
  · nlinarith
  · nlinarith
  · nlinarith
  · rw [hc]; ring

/-- C4 witness: the amended bounds at `current = 1/2, increment = 1/2`. -/
theorem C4_add_with_diminishing_bounds_witness :
    (1:ℚ)/2 ≤ add_with_diminishing (1/2) (1/2) (7/10) ∧
    ((1:ℚ)/2 ≤ 1 →
      0 ≤ add_with_diminishing (1/2) (1/2) (7/10) ∧
      add_with_diminishing (1/2) (1/2) (7/10) ≤ 1 ∧
      ((1:ℚ)/2 < 1 → add_with_diminishing (1/2) (1/2) (7/10) < 1)) ∧
    ((1:ℚ)/2 = 1 → add_with_diminishing (1/2) (1/2) (7/10) = 1) :=
  C4_add_with_diminishing_bounds (1/2) (1/2) (by norm_num) (by norm_num) (by norm_num)

/-- C5 counterexample: with `current = 1, decrement = 2` the result is
`-2/5`, strictly below 0. -/
theorem C5_counterexample :
    subtract_with_diminishing 1 2 (7/10) = -2/5 ∧
    ¬ 0 ≤ subtract_with_diminishing 1 2 (7/10) := by
  constructor <;> norm_num [subtract_with_diminishing, pymax, pymin]

/-- C5 amended: for `current ∈ [0,1]` and `decrement ≥ 0` the result is
`≤ current`; when moreover `decrement ≤ 1` the result stays `≥ 0`. -/
theorem C5_subtract_with_diminishing_bounds (current decrement : ℚ)
    (h0 : 0 ≤ current) (h1 : current ≤ 1) (hd : 0 ≤ decrement) :
    subtract_with_diminishing current decrement (7/10) ≤ current ∧
    (decrement ≤ 1 → 0 ≤ subtract_with_diminishing current decrement (7/10)) := by
  unfold subtract_with_diminishing
  rw [clamp_eq_self h0 h1]
  constructor
  · nlinarith
  · intro hdle; nlinarith

/-- C5 witness: the amended bounds at `current = 1/2, decrement = 1/2`. -/
theorem C5_subtract_with_diminishing_bounds_witness :
    subtract_with_diminishing (1/2) (1/2) (7/10) ≤ (1:ℚ)/2 ∧
    ((1:ℚ)/2 ≤ 1 → 0 ≤ subtract_with_diminishing (1/2) (1/2) (7/10)) :=
  C5_subtract_with_diminishing_bounds (1/2) (1/2) (by norm_num) (by norm_num) (by norm_num)

/-! ## Feature schema -/

/-- Python `s.startswith(p)`, computed on the character lists. -/
def startswith (s p : String) : Bool := p.data.isPrefixOf s.data

/-- Table `GROUP_WEIGHTS`: the fixed relevance weight of each feature group, in
the source's insertion order (the scorer scans it in this order). -/
def GROUP_WEIGHTS : List (String × ℚ) :=
  [("temp", 1), ("weather", 9/10), ("social", 9/10), ("mood", 9/10),
   ("time", 8/10), ("location", 8/10), ("events", 7/10), ("humidity", 6/10),
   ("wind", 6/10), ("season", 1/2), ("energy", 1/2)]

/-- Catalog `FEATURE_NAMES`: the fixed, ordered catalog of feature identifiers. -/
def FEATURE_NAMES : List String :=
  ["temp_extreme_cold", "temp_cold", "temp_cool", "temp_warm", "temp_hot",
   "weather_clear", "weather_partly_cloudy", "weather_cloudy", "weather_fog",
   "weather_drizzle", "weather_rain", "weather_rain_shower", "weather_snow",
   "weather_snow_shower", "weather_thunderstorm",
   "humidity_very_dry", "humidity_dry", "humidity_comfortable",
   "humidity_humid", "humidity_very_humid",
   "wind_calm", "wind_breeze", "wind_windy", "wind_strong", "wind_storm",
   "time_late_night", "time_early_morning", "time_morning",
   "time_afternoon", "time_evening", "time_night",
   "day_weekend", "day_holiday", "day_holiday_eve", "day_workday",
   "season_spring", "season_summer", "season_autumn", "season_winter",
   "romantic_event", "national_festival", "national_mourning", "cultural_tradition",
   "social_solo", "social_couple", "social_family", "social_friends", "social_group",
   "mood_calm", "mood_energetic", "mood_happy", "mood_sad", "mood_thoughtful",
   "mood_romantic", "mood_nostalgic", "mood_stressed", "mood_relaxed",
   "location_indoor", "location_outdoor", "location_home",
   "energy_very_low", "energy_low", "energy_medium", "energy_high", "energy_very_high"]

/-- Python `d.get(k, 0.0)` on a feature map. -/
def fmGet (m : List (String × ℚ)) (k : String) : ℚ := (m.lookup k).getD 0

/-- Python dict assignment `d[k] = v` on a map that already holds key `k`
(insertion order is preserved, the value is replaced). -/
def setKey (m : List (String × ℚ)) (k : String) (v : ℚ) : List (String × ℚ) :=
  m.map (fun p => if p.1 = k then (k, v) else p)

/-- The dict comprehension `{k: v for k in FEATURE_NAMES if k.startswith(gp)}`. -/
def baseline (gp : String) (v : ℚ) : List (String × ℚ) :=
  (FEATURE_NAMES.filter (fun k => startswith k gp)).map (fun k => (k, v))

/-! ## Weather vectorizer -/

/-- Source `WeatherVectorizer.vectorize_code`: the features dict starts as
`{k: 0.0 for k in FEATURE_NAMES if k.startswith("weather_")}` and the
WMO-code if/elif chain assigns one or two entries. -/
def vectorize_code (code : ℤ) : List (String × ℚ) :=
  if code = 0 then setKey (baseline "weather_" 0) "weather_clear" 1
  else if code = 1 then
    setKey (setKey (baseline "weather_" 0) "weather_clear" (8/10)) "weather_partly_cloudy" (2/10)
  else if code = 2 then setKey (baseline "weather_" 0) "weather_partly_cloudy" 1
  else if code = 3 then setKey (baseline "weather_" 0) "weather_cloudy" 1
  else if code = 45 ∨ code = 48 then setKey (baseline "weather_" 0) "weather_fog" 1
  else if code = 51 ∨ code = 56 then setKey (baseline "weather_" 0) "weather_drizzle" (6/10)
  else if code = 53 then setKey (baseline "weather_" 0) "weather_drizzle" (8/10)
  else if code = 55 ∨ code = 57 then setKey (baseline "weather_" 0) "weather_drizzle" 1
  else if code = 61 ∨ code = 66 then setKey (baseline "weather_" 0) "weather_rain" (6/10)
  else if code = 63 then setKey (baseline "weather_" 0) "weather_rain" (8/10)
  else if code = 65 ∨ code = 67 then setKey (baseline "weather_" 0) "weather_rain" 1
  else if code = 71 then setKey (baseline "weather_" 0) "weather_snow" (6/10)
  else if code = 73 then setKey (baseline "weather_" 0) "weather_snow" (8/10)
  else if code = 75 ∨ code = 77 then setKey (baseline "weather_" 0) "weather_snow" 1
  else if code = 80 then setKey (baseline "weather_" 0) "weather_rain_shower" (6/10)
  else if code = 81 then setKey (baseline "weather_" 0) "weather_rain_shower" (8/10)
  else if code = 82 then setKey (baseline "weather_" 0) "weather_rain_shower" 1
  else if code = 85 then setKey (baseline "weather_" 0) "weather_snow_shower" (7/10)
  else if code = 86 then setKey (baseline "weather_" 0) "weather_snow_shower" 1
  else if code = 95 ∨ code = 96 ∨ code = 99 then
    setKey (baseline "weather_" 0) "weather_thunderstorm" 1
  else setKey (baseline "weather_" 0) "weather_clear" (1/2)

/-- The closed table of WMO codes handled by a dedicated branch. -/
def tableCodes : List ℤ :=
  [0, 1, 2, 3, 45, 48, 51, 53, 55, 56, 57, 61, 63, 65, 66, 67,
   71, 73, 75, 77, 80, 81, 82, 85, 86, 95, 96, 99]

/-- Effective temperature: `(0.7 * feels_like_c) + (0.3 * temp_c)`. -/
def effective_temp (temp_c feels_like_c : ℚ) : ℚ :=
  (7/10) * feels_like_c + (3/10) * temp_c

/-- Normalized effective temperature: `(effective + 10) / 50` clamped to `[0,1]`. -/
def temp_norm (temp_c feels_like_c : ℚ) : ℚ :=
  pymax 0 (pymin 1 ((effective_temp temp_c feels_like_c + 10) / 50))

/-- Source `WeatherVectorizer.vectorize_temp`: five triangular bands over the
normalized effective temperature. -/
def vectorize_temp (temp_c feels_like_c : ℚ) : List (String × ℚ) :=
  [("temp_extreme_cold", fuzzy_membership (temp_norm temp_c feels_like_c) 0 (2/10)),
   ("temp_cold", fuzzy_membership (temp_norm temp_c feels_like_c) (2/10) (2/10)),
   ("temp_cool", fuzzy_membership (temp_norm temp_c feels_like_c) (45/100) (2/10)),
   ("temp_warm", fuzzy_membership (temp_norm temp_c feels_like_c) (7/10) (2/10)),
   ("temp_hot", fuzzy_membership (temp_norm temp_c feels_like_c) (9/10) (2/10))]

/-- Source `WeatherVectorizer.vectorize_humidity`. -/
def vectorize_humidity (humidity_percent : ℚ) : List (String × ℚ) :=
  [("humidity_very_dry", fuzzy_membership (humidity_percent / 100) (10/100) (25/100)),
   ("humidity_dry", fuzzy_membership (humidity_percent / 100) (25/100) (25/100)),
   ("humidity_comfortable", fuzzy_membership (humidity_percent / 100) (45/100) (25/100)),
   ("humidity_humid", fuzzy_membership (humidity_percent / 100) (65/100) (25/100)),
   ("humidity_very_humid", fuzzy_membership (humidity_percent / 100) (85/100) (25/100))]

/-- Source `WeatherVectorizer.vectorize_wind`: wind speed normalized by
`min(1.0, speed/60)`, five triangular bands. -/
def vectorize_wind (speed_kmh : ℚ) : List (String × ℚ) :=
  [("wind_calm", fuzzy_membership (pymin 1 (speed_kmh / 60)) 0 (25/100)),
   ("wind_breeze", fuzzy_membership (pymin 1 (speed_kmh / 60)) (20/100) (25/100)),
   ("wind_windy", fuzzy_membership (pymin 1 (speed_kmh / 60)) (45/100) (25/100)),
   ("wind_strong", fuzzy_membership (pymin 1 (speed_kmh / 60)) (70/100) (25/100)),
   ("wind_storm", fuzzy_membership (pymin 1 (speed_kmh / 60)) (90/100) (25/100))]

lemma clamp01_mono {a b : ℚ} (h : a ≤ b) : pymax 0 (pymin 1 a) ≤ pymax 0 (pymin 1 b) := by
  rw [pymax_eq_max, pymax_eq_max, pymin_eq_min, pymin_eq_min]
  exact max_le_max le_rfl (min_le_min le_rfl h)

lemma temp_norm_mono {t1 f1 t2 f2 : ℚ}
    (h : effective_temp t1 f1 ≤ effective_temp t2 f2) :
    temp_norm t1 f1 ≤ temp_norm t2 f2 :=
  clamp01_mono (by unfold effective_temp at *; linarith)

lemma temp_norm_nonneg (t f : ℚ) : 0 ≤ temp_norm t f := clamp_nonneg _

/-- C6: the WMO lookup table. Code 0 gives `weather_clear = 1` and every
other weather feature 0; code 1 gives `weather_clear = 0.8` and
`weather_partly_cloudy = 0.2`; every code outside the closed table gives
`weather_clear = 0.5` and every other weather feature 0. -/
theorem C6_vectorize_code_table (code : ℤ) (h : code ∉ tableCodes) :
    ((vectorize_code 0).lookup "weather_clear" = some 1 ∧
      ∀ k ∈ FEATURE_NAMES, startswith k "weather_" = true → k ≠ "weather_clear" →
        (vectorize_code 0).lookup k = some 0) ∧
    ((vectorize_code 1).lookup "weather_clear" = some (8/10) ∧
      (vectorize_code 1).lookup "weather_partly_cloudy" = some (2/10)) ∧
    ((vectorize_code code).lookup "weather_clear" = some (1/2) ∧
      ∀ k ∈ FEATURE_NAMES, startswith k "weather_" = true → k ≠ "weather_clear" →
        (vectorize_code code).lookup k = some 0) := by
  have hd : vectorize_code code = setKey (baseline "weather_" 0) "weather_clear" (1/2) := by
    simp only [tableCodes, List.mem_cons, List.not_mem_nil, or_false] at h
    push_neg at h
    obtain ⟨h0, h1, h2, h3, h45, h48, h51, h53, h55, h56, h57, h61, h63, h65,
      h66, h67, h71, h73, h75, h77, h80, h81, h82, h85, h86, h95, h96, h99⟩ := h
    unfold vectorize_code
    rw [if_neg h0, if_neg h1, if_neg h2, if_neg h3,
      if_neg (not_or.mpr ⟨h45, h48⟩), if_neg (not_or.mpr ⟨h51, h56⟩), if_neg h53,
      if_neg (not_or.mpr ⟨h55, h57⟩), if_neg (not_or.mpr ⟨h61, h66⟩), if_neg h63,
      if_neg (not_or.mpr ⟨h65, h67⟩), if_neg h71, if_neg h73,
      if_neg (not_or.mpr ⟨h75, h77⟩), if_neg h80, if_neg h81, if_neg h82,
      if_neg h85, if_neg h86]
    rw [if_neg (by push_neg; exact ⟨h95, h96, h99⟩)]
  refine ⟨⟨rfl, ?_⟩, ⟨rfl, rfl⟩, ?_, ?_⟩
  · decide
  · rw [hd]; rfl
  · rw [hd]
    decide

/-- C6 witness: the default branch applied at the unmapped code 1000. -/
theorem C6_vectorize_code_table_witness :
    ((vectorize_code 0).lookup "weather_clear" = some 1 ∧
      ∀ k ∈ FEATURE_NAMES, startswith k "weather_" = true → k ≠ "weather_clear" →
        (vectorize_code 0).lookup k = some 0) ∧
    ((vectorize_code 1).lookup "weather_clear" = some (8/10) ∧
      (vectorize_code 1).lookup "weather_partly_cloudy" = some (2/10)) ∧
    ((vectorize_code 1000).lookup "weather_clear" = some (1/2) ∧
      ∀ k ∈ FEATURE_NAMES, startswith k "weather_" = true → k ≠ "weather_clear" →
        (vectorize_code 1000).lookup k = some 0) :=
  C6_vectorize_code_table 1000 (by decide)

/-- C7 counterexample: raising the effective temperature from 37.5°C to
40°C, with the normalized value already above the `temp_hot` center 0.9,
makes the `temp_hot` membership fall from 3/4 to 1/2, so it is not
monotonically increasing above the band center. -/
theorem C7_counterexample :
    effective_temp (75/2) (75/2) < effective_temp 40 40 ∧
    9/10 < temp_norm (75/2) (75/2) ∧ 9/10 < temp_norm 40 40 ∧
    fmGet (vectorize_temp (75/2) (75/2)) "temp_hot" = 3/4 ∧
    fmGet (vectorize_temp 40 40) "temp_hot" = 1/2 ∧
    ¬ fmGet (vectorize_temp (75/2) (75/2)) "temp_hot" ≤
        fmGet (vectorize_temp 40 40) "temp_hot" := by
  have e1 : fmGet (vectorize_temp (75/2) (75/2)) "temp_hot" =
      fuzzy_membership (temp_norm (75/2) (75/2)) (9/10) (2/10) := rfl
  have e2 : fmGet (vectorize_temp 40 40) "temp_hot" =
      fuzzy_membership (temp_norm 40 40) (9/10) (2/10) := rfl
  rw [e1, e2]
  norm_num [fuzzy_membership, temp_norm, effective_temp, pymax, pymin,
    abs_of_nonneg, abs_of_nonpos]

/-- C7 amended: along any increase of the effective temperature the
`temp_extreme_cold` membership never increases, and the `temp_hot`
membership never decreases as long as the (larger) normalized effective
temperature stays at or below the `temp_hot` band center 0.9; above that
center `temp_hot` decreases again. -/
theorem C7_vectorize_temp_monotone (t1 f1 t2 f2 : ℚ)
    (h : effective_temp t1 f1 ≤ effective_temp t2 f2) :
    (temp_norm t2 f2 ≤ 9/10 →
      fmGet (vectorize_temp t1 f1) "temp_hot" ≤ fmGet (vectorize_temp t2 f2) "temp_hot") ∧
    fmGet (vectorize_temp t2 f2) "temp_extreme_cold" ≤
      fmGet (vectorize_temp t1 f1) "temp_extreme_cold" := by
  have e1 : ∀ t f : ℚ, fmGet (vectorize_temp t f) "temp_hot" =
      fuzzy_membership (temp_norm t f) (9/10) (2/10) := fun t f => rfl
  have e2 : ∀ t f : ℚ, fmGet (vectorize_temp t f) "temp_extreme_cold" =
      fuzzy_membership (temp_norm t f) 0 (2/10) := fun t f => rfl
  have hn := temp_norm_mono h
  constructor
  · intro hle
    rw [e1, e1]
    unfold fuzzy_membership
    apply clamp01_mono
    have a1 : |temp_norm t1 f1 - 9/10| = 9/10 - temp_norm t1 f1 := by
      rw [abs_of_nonpos (by linarith)]; ring
    have a2 : |temp_norm t2 f2 - 9/10| = 9/10 - temp_norm t2 f2 := by
      rw [abs_of_nonpos (by linarith)]; ring
    rw [a1, a2]
    linarith
  · rw [e2, e2]
    unfold fuzzy_membership
    apply clamp01_mono
    have a1 : |temp_norm t1 f1 - 0| = temp_norm t1 f1 := by
      rw [sub_zero, abs_of_nonneg (temp_norm_nonneg t1 f1)]
    have a2 : |temp_norm t2 f2 - 0| = temp_norm t2 f2 := by
      rw [sub_zero, abs_of_nonneg (temp_norm_nonneg t2 f2)]
    rw [a1, a2]
    linarith

/-- C7 witness: the amended monotonicity at effective temperatures 10°C
and 15°C (normalized 0.4 and 0.5, both below the 0.9 center). -/
theorem C7_vectorize_temp_monotone_witness :
    (temp_norm 15 15 ≤ 9/10 →
      fmGet (vectorize_temp 10 10) "temp_hot" ≤ fmGet (vectorize_temp 15 15) "temp_hot") ∧
    fmGet (vectorize_temp 15 15) "temp_extreme_cold" ≤
      fmGet (vectorize_temp 10 10) "temp_extreme_cold" :=
  C7_vectorize_temp_monotone 10 10 15 15 (by norm_num [effective_temp])

/-! ## Time vectorizer -/

/-- Circular hour distance, normalized to `[0,1]`:
`min(|h1-h2|, 24-|h1-h2|) / 12`. -/
def circular_dist (h1 h2 : ℚ) : ℚ := pymin (|h1 - h2|) (24 - |h1 - h2|) / 12

/-- Source `time_membership(h, center)`: triangular membership over the circular
distance, width 0.15 in normalized units. -/
def time_membership (h center : ℚ) : ℚ :=
  pymax 0 (pymin 1 (1 - circular_dist h center / (15/100)))

/-- Source `TimeVectorizer.vectorize`. -/
def time_vectorize (hour : ℚ) : List (String × ℚ) :=
  [("time_late_night", time_membership hour 0),
   ("time_early_morning", time_membership hour 5),
   ("time_morning", time_membership hour 9),
   ("time_afternoon", time_membership hour 14),
   ("time_evening", time_membership hour 19),
   ("time_night", time_membership hour 22)]

/-! ## Context builder

The source reads the month and the weekday from
`datetime.datetime.now()` inside `build`; that ambient wall-clock state
is modelled by the explicit `month` and `weekday` arguments. Python dict
mutation (`d[k] = v`) is `setKey`, dict reads are `fmGet`, and the final
`context.update(...)` merge is list concatenation, which agrees with the
dict semantics because the groups' key sets are pairwise disjoint. -/

/-- Season features: a hard partition by calendar month. -/
def season_features (month : ℤ) : List (String × ℚ) :=
  [("season_spring", if 3 ≤ month ∧ month ≤ 5 then 1 else 0),
   ("season_summer", if 6 ≤ month ∧ month ≤ 8 then 1 else 0),
   ("season_autumn", if 9 ≤ month ∧ month ≤ 11 then 1 else 0),
   ("season_winter", if month = 12 ∨ month ≤ 2 then 1 else 0)]

/-- Source `is_weekend = 1.0 if weekday == 4 else 0.0` (the source's final
assignment; `weekday` is 0 for Monday). -/
def is_weekend_val (weekday : ℤ) : ℚ := if weekday = 4 then 1 else 0

/-- Day-type features; `day_workday` is `1.0 if not is_weekend else 0.0`
on the float `is_weekend`, i.e. 1 exactly when that float is zero. -/
def day_features (weekday : ℤ) : List (String × ℚ) :=
  [("day_weekend", is_weekend_val weekday),
   ("day_holiday", 0),
   ("day_holiday_eve", 0),
   ("day_workday", if is_weekend_val weekday = 0 then 1 else 0)]

/-- Event features: always-zero placeholders. -/
def event_features : List (String × ℚ) :=
  [("romantic_event", 0), ("national_festival", 0),
   ("national_mourning", 0), ("cultural_tradition", 0)]

/-- Source `ContextBuilder.infer_mood`, baseline step: 0.1 on every mood
feature, then calm 0.2 and happy 0.3. -/
def mood_m0 : List (String × ℚ) :=
  setKey (setKey (baseline "mood_" (1/10)) "mood_calm" (2/10)) "mood_happy" (3/10)

/-- Mood after the rain push (`weather_rain > 0.5` lifts calm and
thoughtful by 0.3 each). -/
def mood_after_rain (w : List (String × ℚ)) : List (String × ℚ) :=
  if fmGet w "weather_rain" > 1/2 then
    let a := setKey mood_m0 "mood_calm" (add_with_diminishing (fmGet mood_m0 "mood_calm") (3/10) (7/10))
    setKey a "mood_thoughtful" (add_with_diminishing (fmGet a "mood_thoughtful") (3/10) (7/10))
  else mood_m0

/-- Mood after the clear-sky push (`weather_clear > 0.7` lifts happy by
0.4 and energetic by 0.3). -/
def mood_after_clear (w : List (String × ℚ)) : List (String × ℚ) :=
  if fmGet w "weather_clear" > 7/10 then
    let a := setKey (mood_after_rain w) "mood_happy"
      (add_with_diminishing (fmGet (mood_after_rain w) "mood_happy") (4/10) (7/10))
    setKey a "mood_energetic" (add_with_diminishing (fmGet a "mood_energetic") (3/10) (7/10))
  else mood_after_rain w

/-- Source `ContextBuilder.infer_mood`: the late-night push
(`time_late_night > 0.5` lifts calm by 0.4 and thoughtful by 0.3,
cumulative with the earlier pushes). -/
def infer_mood (w t : List (String × ℚ)) : List (String × ℚ) :=
  if fmGet t "time_late_night" > 1/2 then
    let a := setKey (mood_after_clear w) "mood_calm"
      (add_with_diminishing (fmGet (mood_after_clear w) "mood_calm") (4/10) (7/10))
    setKey a "mood_thoughtful" (add_with_diminishing (fmGet a "mood_thoughtful") (3/10) (7/10))
  else mood_after_clear w

/-- Source `ContextBuilder.infer_social`, baseline step: 0.1 everywhere, solo 0.3. -/
def social_s0 : List (String × ℚ) :=
  setKey (baseline "social_" (1/10)) "social_solo" (3/10)

/-- Social after the weekend push; `if is_weekend:` is Python float
truthiness, i.e. `is_weekend ≠ 0`. -/
def social_after_weekend (is_weekend : ℚ) : List (String × ℚ) :=
  if is_weekend ≠ 0 then
    let a := setKey social_s0 "social_family"
      (add_with_diminishing (fmGet social_s0 "social_family") (4/10) (7/10))
    setKey a "social_friends" (add_with_diminishing (fmGet a "social_friends") (3/10) (7/10))
  else social_s0

/-- Source `ContextBuilder.infer_social`: the evening push on `social_family`. -/
def infer_social (t : List (String × ℚ)) (is_weekend : ℚ) : List (String × ℚ) :=
  if fmGet t "time_evening" > 1/2 then
    setKey (social_after_weekend is_weekend) "social_family"
      (add_with_diminishing (fmGet (social_after_weekend is_weekend) "social_family") (2/10) (7/10))
  else social_after_weekend is_weekend

/-- Source `bad_weather = max(w["weather_rain"], w["weather_snow"], w["weather_thunderstorm"])`. -/
def bad_weather (w : List (String × ℚ)) : ℚ :=
  pymax (pymax (fmGet w "weather_rain") (fmGet w "weather_snow")) (fmGet w "weather_thunderstorm")

/-- Source `ContextBuilder.infer_location`, initial dict literal. -/
def loc_l0 : List (String × ℚ) :=
  [("location_indoor", 1/2), ("location_outdoor", 1/2), ("location_home", 3/10)]

/-- Location after the bad-weather block (indoor up 0.5, outdoor down 0.5,
home up 0.4 when `bad_weather > 0.5`). -/
def loc_after_bad (w : List (String × ℚ)) : List (String × ℚ) :=
  if bad_weather w > 1/2 then
    let a := setKey loc_l0 "location_indoor"
      (add_with_diminishing (fmGet loc_l0 "location_indoor") (1/2) (7/10))
    let b := setKey a "location_outdoor"
      (subtract_with_diminishing (fmGet a "location_outdoor") (1/2) (7/10))
    setKey b "location_home" (add_with_diminishing (fmGet b "location_home") (4/10) (7/10))
  else loc_l0

/-- Source `ContextBuilder.infer_location`: the good-weather push on
`location_outdoor`. -/
def infer_location (w wind : List (String × ℚ)) : List (String × ℚ) :=
  if fmGet w "weather_clear" > 7/10 ∧ fmGet wind "wind_calm" > 1/2 then
    setKey (loc_after_bad w) "location_outdoor"
      (add_with_diminishing (fmGet (loc_after_bad w) "location_outdoor") (4/10) (7/10))
  else loc_after_bad w

/-- Source `ContextBuilder.infer_energy`, morning push on `energy_high`. -/
def energy_after_morning (t : List (String × ℚ)) : List (String × ℚ) :=
  if fmGet t "time_morning" > 1/2 then
    setKey (baseline "energy_" (2/10)) "energy_high"
      (add_with_diminishing (fmGet (baseline "energy_" (2/10)) "energy_high") (4/10) (7/10))
  else baseline "energy_" (2/10)

/-- Source `ContextBuilder.infer_energy`: the late-night push on
`energy_very_low` (the `w` argument is unused, as in the source). -/
def infer_energy (t w : List (String × ℚ)) : List (String × ℚ) :=
  if fmGet t "time_late_night" > 1/2 then
    setKey (energy_after_morning t) "energy_very_low"
      (add_with_diminishing (fmGet (energy_after_morning t) "energy_very_low") (6/10) (7/10))
  else energy_after_morning t

/-- Source `ContextBuilder.build`: the merged context vector, in the source's
`context.update` order. -/
def build (temperature_2m apparent_temperature relative_humidity_2m : ℚ)
    (weather_code : ℤ) (wind_speed_10m : ℚ) (current_hour : ℚ)
    (month weekday : ℤ) : List (String × ℚ) :=
  vectorize_temp temperature_2m apparent_temperature ++
  vectorize_code weather_code ++
  vectorize_humidity relative_humidity_2m ++
  vectorize_wind wind_speed_10m ++
  time_vectorize current_hour ++
  day_features weekday ++
  season_features month ++
  event_features ++
  infer_mood (vectorize_code weather_code) (time_vectorize current_hour) ++
  infer_social (time_vectorize current_hour) (is_weekend_val weekday) ++
  infer_location (vectorize_code weather_code) (vectorize_wind wind_speed_10m) ++
  infer_energy (time_vectorize current_hour) (vectorize_code weather_code)

/-! ## Association-list lemmas -/

lemma lookup_append_or (k : String) (l1 l2 : List (String × ℚ)) :
    (l1 ++ l2).lookup k = ((l1.lookup k).or (l2.lookup k)) := by
  induction l1 with
  | nil => simp [Option.or]
  | cons p rest ih =>
    obtain ⟨k', v⟩ := p
    rw [List.cons_append, List.lookup_cons, List.lookup_cons]
    cases h : k == k' with
    | true => simp [Option.or]
    | false => simp [ih]

lemma lookup_eq_none_of_keys {l : List (String × ℚ)} {k : String}
    (h : k ∉ l.map Prod.fst) : l.lookup k = none := by
  induction l with
  | nil => rfl
  | cons p rest ih =>
    obtain ⟨k', v⟩ := p
    simp only [List.map_cons, List.mem_cons] at h
    push_neg at h
    rw [List.lookup_cons]
    cases hkk : k == k' with
    | true => exact absurd (by simpa using hkk) h.1
    | false => exact ih h.2

lemma setKey_map_fst (m : List (String × ℚ)) (k : String) (v : ℚ) :
    (setKey m k v).map Prod.fst = m.map Prod.fst := by
  induction m with
  | nil => rfl
  | cons p rest ih =>
    obtain ⟨k', v'⟩ := p
    simp only [setKey, List.map_cons] at *
    by_cases h : k' = k
    · subst h; simp [ih]
    · simp [h, ih]

lemma map_fst_ite (c : Prop) [Decidable c] (a b : List (String × ℚ)) :
    (ite c a b).map Prod.fst = ite c (a.map Prod.fst) (b.map Prod.fst) := by
  split <;> rfl

lemma vectorize_code_keys (code : ℤ) : (vectorize_code code).map Prod.fst =
    ["weather_clear", "weather_partly_cloudy", "weather_cloudy", "weather_fog",
     "weather_drizzle", "weather_rain", "weather_rain_shower", "weather_snow",
     "weather_snow_shower", "weather_thunderstorm"] := by
  simp only [vectorize_code, map_fst_ite, setKey_map_fst, ite_self]
  rfl

lemma infer_mood_keys (w t : List (String × ℚ)) : (infer_mood w t).map Prod.fst =
    ["mood_calm", "mood_energetic", "mood_happy", "mood_sad", "mood_thoughtful",
     "mood_romantic", "mood_nostalgic", "mood_stressed", "mood_relaxed"] := by
  simp only [infer_mood, mood_after_clear, mood_after_rain, mood_m0,
    map_fst_ite, setKey_map_fst, ite_self]
  rfl

lemma infer_social_keys (t : List (String × ℚ)) (iw : ℚ) :
    (infer_social t iw).map Prod.fst =
    ["social_solo", "social_couple", "social_family", "social_friends", "social_group"] := by
  simp only [infer_social, social_after_weekend, social_s0,
    map_fst_ite, setKey_map_fst, ite_self]
  rfl

lemma infer_location_keys (w wind : List (String × ℚ)) :
    (infer_location w wind).map Prod.fst =
    ["location_indoor", "location_outdoor", "location_home"] := by
  simp only [infer_location, loc_after_bad, loc_l0,
    map_fst_ite, setKey_map_fst, ite_self]
  rfl

lemma infer_energy_keys (t w : List (String × ℚ)) :
    (infer_energy t w).map Prod.fst =
    ["energy_very_low", "energy_low", "energy_medium", "energy_high", "energy_very_high"] := by
  simp only [infer_energy, energy_after_morning,
    map_fst_ite, setKey_map_fst, ite_self]
  rfl

/-! ## Unit-interval bounds for every context value -/

lemma fm_unit (v c w : ℚ) : 0 ≤ fuzzy_membership v c w ∧ fuzzy_membership v c w ≤ 1 :=
  ⟨clamp_nonneg _, clamp_le_one _⟩

lemma tm_unit (h c : ℚ) : 0 ≤ time_membership h c ∧ time_membership h c ≤ 1 :=
  ⟨clamp_nonneg _, clamp_le_one _⟩

lemma add_unit (c i : ℚ) (h0 : 0 ≤ i) (h1 : i ≤ 1) :
    0 ≤ add_with_diminishing c i (7/10) ∧ add_with_diminishing c i (7/10) ≤ 1 := by
  unfold add_with_diminishing
  have g0 := clamp_nonneg c
  have g1 := clamp_le_one c
  constructor <;> nlinarith

lemma sub_unit (c d : ℚ) (h0 : 0 ≤ d) (h1 : d ≤ 1) :
    0 ≤ subtract_with_diminishing c d (7/10) ∧ subtract_with_diminishing c d (7/10) ≤ 1 := by
  unfold subtract_with_diminishing
  have g0 := clamp_nonneg c
  have g1 := clamp_le_one c
  constructor <;> nlinarith

lemma baseline_forall {gp : String} {v : ℚ} (hv : 0 ≤ v ∧ v ≤ 1) :
    ∀ p ∈ baseline gp v, 0 ≤ p.2 ∧ p.2 ≤ 1 := by
  intro p hp
  simp only [baseline, List.mem_map] at hp
  obtain ⟨k, _, rfl⟩ := hp
  exact hv

lemma setKey_forall {m : List (String × ℚ)} {k : String} {v : ℚ}
    (hm : ∀ p ∈ m, 0 ≤ p.2 ∧ p.2 ≤ 1) (hv : 0 ≤ v ∧ v ≤ 1) :
    ∀ p ∈ setKey m k v, 0 ≤ p.2 ∧ p.2 ≤ 1 := by
  intro p hp
  simp only [setKey, List.mem_map] at hp
  obtain ⟨q, hq, hfq⟩ := hp
  by_cases h : q.1 = k
  · rw [if_pos h] at hfq; subst hfq; exact hv
  · rw [if_neg h] at hfq; subst hfq; exact hm q hq

lemma vectorize_temp_unit (t a : ℚ) : ∀ p ∈ vectorize_temp t a, 0 ≤ p.2 ∧ p.2 ≤ 1 := by
  intro p hp
  simp only [vectorize_temp, List.mem_cons, List.not_mem_nil, or_false] at hp
  rcases hp with rfl | rfl | rfl | rfl | rfl <;> exact fm_unit _ _ _

lemma vectorize_humidity_unit (hum : ℚ) :
    ∀ p ∈ vectorize_humidity hum, 0 ≤ p.2 ∧ p.2 ≤ 1 := by
  intro p hp
  simp only [vectorize_humidity, List.mem_cons, List.not_mem_nil, or_false] at hp
  rcases hp with rfl | rfl | rfl | rfl | rfl <;> exact fm_unit _ _ _

lemma vectorize_wind_unit (s : ℚ) : ∀ p ∈ vectorize_wind s, 0 ≤ p.2 ∧ p.2 ≤ 1 := by
  intro p hp
  simp only [vectorize_wind, List.mem_cons, List.not_mem_nil, or_false] at hp
  rcases hp with rfl | rfl | rfl | rfl | rfl <;> exact fm_unit _ _ _

lemma time_vectorize_unit (h : ℚ) : ∀ p ∈ time_vectorize h, 0 ≤ p.2 ∧ p.2 ≤ 1 := by
  intro p hp
  simp only [time_vectorize, List.mem_cons, List.not_mem_nil, or_false] at hp
  rcases hp with rfl | rfl | rfl | rfl | rfl | rfl <;> exact tm_unit _ _

lemma ite_forall {c : Prop} [Decidable c] {a b : List (String × ℚ)}
    (ha : ∀ p ∈ a, 0 ≤ p.2 ∧ p.2 ≤ 1) (hb : ∀ p ∈ b, 0 ≤ p.2 ∧ p.2 ≤ 1) :
    ∀ p ∈ ite c a b, 0 ≤ p.2 ∧ p.2 ≤ 1 := by
  split <;> assumption

set_option maxHeartbeats 1600000 in
lemma vectorize_code_unit (code : ℤ) : ∀ p ∈ vectorize_code code, 0 ≤ p.2 ∧ p.2 ≤ 1 := by
  have hb : ∀ p ∈ baseline "weather_" 0, 0 ≤ p.2 ∧ p.2 ≤ (1:ℚ) :=
    baseline_forall (by norm_num)
  unfold vectorize_code
  repeat' refine ite_forall ?_ ?_
  all_goals refine setKey_forall ?_ (by norm_num)
  all_goals first
    | exact hb
    | exact setKey_forall hb (by norm_num)

lemma day_features_unit (d : ℤ) : ∀ p ∈ day_features d, 0 ≤ p.2 ∧ p.2 ≤ 1 := by
  intro p hp
  simp only [day_features, List.mem_cons, List.not_mem_nil, or_false] at hp
  rcases hp with rfl | rfl | rfl | rfl
  · unfold is_weekend_val; split_ifs <;> norm_num
  · norm_num
  · norm_num
  · unfold is_weekend_val; split_ifs <;> norm_num

lemma season_features_unit (m : ℤ) : ∀ p ∈ season_features m, 0 ≤ p.2 ∧ p.2 ≤ 1 := by
  intro p hp
  simp only [season_features, List.mem_cons, List.not_mem_nil, or_false] at hp
  rcases hp with rfl | rfl | rfl | rfl <;> split_ifs <;> norm_num

lemma event_features_unit : ∀ p ∈ event_features, 0 ≤ p.2 ∧ p.2 ≤ 1 := by
  intro p hp
  simp only [event_features, List.mem_cons, List.not_mem_nil, or_false] at hp
  rcases hp with rfl | rfl | rfl | rfl <;> norm_num

lemma mood_m0_unit : ∀ p ∈ mood_m0, 0 ≤ p.2 ∧ p.2 ≤ 1 := by
  unfold mood_m0
  refine setKey_forall (setKey_forall (baseline_forall ?_) ?_) ?_ <;> norm_num

lemma mood_after_rain_unit (w : List (String × ℚ)) :
    ∀ p ∈ mood_after_rain w, 0 ≤ p.2 ∧ p.2 ≤ 1 := by
  unfold mood_after_rain
  refine ite_forall (setKey_forall (setKey_forall mood_m0_unit ?_) ?_) mood_m0_unit <;>
    exact add_unit _ _ (by norm_num) (by norm_num)

lemma mood_after_clear_unit (w : List (String × ℚ)) :
    ∀ p ∈ mood_after_clear w, 0 ≤ p.2 ∧ p.2 ≤ 1 := by
  unfold mood_after_clear
  refine ite_forall
    (setKey_forall (setKey_forall (mood_after_rain_unit w) ?_) ?_)
    (mood_after_rain_unit w) <;>
    exact add_unit _ _ (by norm_num) (by norm_num)

lemma infer_mood_unit (w t : List (String × ℚ)) :
    ∀ p ∈ infer_mood w t, 0 ≤ p.2 ∧ p.2 ≤ 1 := by
  unfold infer_mood
  refine ite_forall
    (setKey_forall (setKey_forall (mood_after_clear_unit w) ?_) ?_)
    (mood_after_clear_unit w) <;>
    exact add_unit _ _ (by norm_num) (by norm_num)

lemma social_s0_unit : ∀ p ∈ social_s0, 0 ≤ p.2 ∧ p.2 ≤ 1 := by
  unfold social_s0
  refine setKey_forall (baseline_forall ?_) ?_ <;> norm_num

lemma social_after_weekend_unit (iw : ℚ) :
    ∀ p ∈ social_after_weekend iw, 0 ≤ p.2 ∧ p.2 ≤ 1 := by
  unfold social_after_weekend
  refine ite_forall (setKey_forall (setKey_forall social_s0_unit ?_) ?_) social_s0_unit <;>
    exact add_unit _ _ (by norm_num) (by norm_num)

lemma infer_social_unit (t : List (String × ℚ)) (iw : ℚ) :
    ∀ p ∈ infer_social t iw, 0 ≤ p.2 ∧ p.2 ≤ 1 := by
  unfold infer_social
  refine ite_forall (setKey_forall (social_after_weekend_unit iw) ?_)
    (social_after_weekend_unit iw)
  exact add_unit _ _ (by norm_num) (by norm_num)

lemma loc_l0_unit : ∀ p ∈ loc_l0, 0 ≤ p.2 ∧ p.2 ≤ 1 := by
  intro p hp
  simp only [loc_l0, List.mem_cons, List.not_mem_nil, or_false] at hp
  rcases hp with rfl | rfl | rfl <;> norm_num

lemma loc_after_bad_unit (w : List (String × ℚ)) :
    ∀ p ∈ loc_after_bad w, 0 ≤ p.2 ∧ p.2 ≤ 1 := by
  unfold loc_after_bad
  refine ite_forall
    (setKey_forall (setKey_forall (setKey_forall loc_l0_unit ?_) ?_) ?_) loc_l0_unit
  · exact add_unit _ _ (by norm_num) (by norm_num)
  · exact sub_unit _ _ (by norm_num) (by norm_num)
  · exact add_unit _ _ (by norm_num) (by norm_num)

lemma infer_location_unit (w wind : List (String × ℚ)) :
    ∀ p ∈ infer_location w wind, 0 ≤ p.2 ∧ p.2 ≤ 1 := by
  unfold infer_location
  refine ite_forall (setKey_forall (loc_after_bad_unit w) ?_) (loc_after_bad_unit w)
  exact add_unit _ _ (by norm_num) (by norm_num)

lemma energy_after_morning_unit (t : List (String × ℚ)) :
    ∀ p ∈ energy_after_morning t, 0 ≤ p.2 ∧ p.2 ≤ 1 := by
  unfold energy_after_morning
  have hb : ∀ p ∈ baseline "energy_" (2/10), 0 ≤ p.2 ∧ p.2 ≤ (1:ℚ) :=
    baseline_forall (by norm_num)
  refine ite_forall (setKey_forall hb ?_) hb
  exact add_unit _ _ (by norm_num) (by norm_num)

lemma infer_energy_unit (t w : List (String × ℚ)) :
    ∀ p ∈ infer_energy t w, 0 ≤ p.2 ∧ p.2 ≤ 1 := by
  unfold infer_energy
  refine ite_forall (setKey_forall (energy_after_morning_unit t) ?_)
    (energy_after_morning_unit t)
  exact add_unit _ _ (by norm_num) (by norm_num)

/-- C9: for a well-formed observation (humidity within 0–100, nonnegative
wind speed) and an hour in `[0,24)`, every value of the built context
vector — including all inferred mood, social, location and energy values —
lies in `[0,1]`. -/
theorem C9_build_in_unit (t a hum : ℚ) (code : ℤ) (wind hour : ℚ) (month weekday : ℤ)
    (hh0 : 0 ≤ hum) (hh1 : hum ≤ 100) (hw : 0 ≤ wind) (hr0 : 0 ≤ hour) (hr1 : hour < 24) :
    ∀ p ∈ build t a hum code wind hour month weekday, 0 ≤ p.2 ∧ p.2 ≤ 1 := by
  intro p hp
  simp only [build, List.mem_append, or_assoc] at hp
  rcases hp with hp | hp | hp | hp | hp | hp | hp | hp | hp | hp | hp | hp
  · exact vectorize_temp_unit _ _ p hp
  · exact vectorize_code_unit _ p hp
  · exact vectorize_humidity_unit _ p hp
  · exact vectorize_wind_unit _ p hp
  · exact time_vectorize_unit _ p hp
  · exact day_features_unit _ p hp
  · exact season_features_unit _ p hp
  · exact event_features_unit p hp
  · exact infer_mood_unit _ _ p hp
  · exact infer_social_unit _ _ p hp
  · exact infer_location_unit _ _ p hp
  · exact infer_energy_unit _ _ p hp

/-- C9 witness: the default observation (20°C, 20°C feels-like, 50%
humidity, code 0, 5 km/h wind) at hour 14 in June on a Wednesday, read at
the `day_holiday` entry of the built context. -/
theorem C9_build_in_unit_witness :
    0 ≤ (("day_holiday", (0:ℚ)) : String × ℚ).2 ∧
      (("day_holiday", (0:ℚ)) : String × ℚ).2 ≤ 1 :=
  C9_build_in_unit 20 20 50 0 5 14 6 2 (by norm_num) (by norm_num) (by norm_num)
    (by norm_num) (by norm_num) ("day_holiday", (0:ℚ))
    (List.mem_append.mpr (Or.inl (List.mem_append.mpr (Or.inl
      (List.mem_append.mpr (Or.inl (List.mem_append.mpr (Or.inl
      (List.mem_append.mpr (Or.inl (List.mem_append.mpr (Or.inl
      (List.mem_append.mpr (Or.inr
        (List.mem_cons_of_mem _ (List.mem_cons_self _ _))))))))))))))))

/-- C10: in every built context vector, `day_weekend` is 1 exactly when
the ambient weekday index is 4 and 0 otherwise, `day_workday` is
`1 - day_weekend`, and `day_holiday` and `day_holiday_eve` are 0. -/
theorem C10_day_type (t a hum : ℚ) (code : ℤ) (wind hour : ℚ) (month weekday : ℤ) :
    (build t a hum code wind hour month weekday).lookup "day_weekend" =
      some (if weekday = 4 then 1 else 0) ∧
    (build t a hum code wind hour month weekday).lookup "day_workday" =
      some (1 - (if weekday = 4 then (1:ℚ) else 0)) ∧
    (build t a hum code wind hour month weekday).lookup "day_holiday" = some 0 ∧
    (build t a hum code wind hour month weekday).lookup "day_holiday_eve" = some 0 := by
  have h1 : List.lookup "day_weekend" (vectorize_code code) = none :=
    lookup_eq_none_of_keys (by rw [vectorize_code_keys]; decide)
  have h2 : List.lookup "day_workday" (vectorize_code code) = none :=
    lookup_eq_none_of_keys (by rw [vectorize_code_keys]; decide)
  have h3 : List.lookup "day_holiday" (vectorize_code code) = none :=
    lookup_eq_none_of_keys (by rw [vectorize_code_keys]; decide)
  have h4 : List.lookup "day_holiday_eve" (vectorize_code code) = none :=
    lookup_eq_none_of_keys (by rw [vectorize_code_keys]; decide)
  refine ⟨?_, ?_, ?_, ?_⟩ <;> simp only [build, lookup_append_or]
  · rw [h1]; rfl
  · rw [h2]
    show some (if is_weekend_val weekday = 0 then (1:ℚ) else 0) = _
    simp only [is_weekend_val]
    split_ifs <;> simp_all
  · rw [h3]; rfl
  · rw [h4]; rfl

/-- C10 witness: the day-type lookups at a concrete build (June, Friday). -/
theorem C10_day_type_witness :
    (build 20 20 50 0 5 14 6 4).lookup "day_weekend" =
      some (if (4:ℤ) = 4 then 1 else 0) ∧
    (build 20 20 50 0 5 14 6 4).lookup "day_workday" =
      some (1 - (if (4:ℤ) = 4 then (1:ℚ) else 0)) ∧
    (build 20 20 50 0 5 14 6 4).lookup "day_holiday" = some 0 ∧
    (build 20 20 50 0 5 14 6 4).lookup "day_holiday_eve" = some 0 :=
  C10_day_type 20 20 50 0 5 14 6 4

/-- C8 counterexample: with the same observation and hour, changing the
ambient wall-clock month from January to June flips `season_winter` from
1 to 0, so `build` is not a function of the observation and hour alone. -/
theorem C8_counterexample :
    (build 20 20 50 0 5 14 1 2).lookup "season_winter" = some 1 ∧
    (build 20 20 50 0 5 14 6 2).lookup "season_winter" = some 0 ∧
    some (1:ℚ) ≠ some (0:ℚ) := by
  have h1 : List.lookup "season_winter" (vectorize_code 0) = none :=
    lookup_eq_none_of_keys (by rw [vectorize_code_keys]; decide)
  refine ⟨?_, ?_, by simp⟩ <;> simp only [build, lookup_append_or] <;> rw [h1] <;> rfl

/-- C8 amended: `build` is a pure function of the observation, the hour,
and the ambient month and weekday; every feature outside the day-type,
season and social groups is independent of the ambient month and weekday
(the day-type and season groups read them directly, and the social group
reads the weekend flag). -/
theorem C8_build_ambient_frame (t a hum : ℚ) (code : ℤ) (wind hour : ℚ)
    (m1 d1 m2 d2 : ℤ) (k : String)
    (hk1 : k ∉ ["day_weekend", "day_holiday", "day_holiday_eve", "day_workday"])
    (hk2 : k ∉ ["season_spring", "season_summer", "season_autumn", "season_winter"])
    (hk3 : k ∉ ["social_solo", "social_couple", "social_family", "social_friends", "social_group"]) :
    (build t a hum code wind hour m1 d1).lookup k =
      (build t a hum code wind hour m2 d2).lookup k := by
  have hday : ∀ d : ℤ, List.lookup k (day_features d) = none := fun d =>
    lookup_eq_none_of_keys hk1
  have hseason : ∀ m : ℤ, List.lookup k (season_features m) = none := fun m =>
    lookup_eq_none_of_keys hk2
  have hsocial : ∀ iw : ℚ, List.lookup k (infer_social (time_vectorize hour) iw) = none :=
    fun iw => lookup_eq_none_of_keys (by rw [infer_social_keys]; exact hk3)
  simp only [build, lookup_append_or]
  rw [hday d1, hday d2, hseason m1, hseason m2, hsocial _, hsocial _]

/-- C8 witness: the frame property at the feature `weather_clear`,
between (January, Monday) and (June, Friday). -/
theorem C8_build_ambient_frame_witness :
    (build 20 20 50 0 5 14 1 0).lookup "weather_clear" =
      (build 20 20 50 0 5 14 6 4).lookup "weather_clear" :=
  C8_build_ambient_frame 20 20 50 0 5 14 1 0 6 4 "weather_clear"
    (by decide) (by decide) (by decide)

/-! ## Suggestion scorer -/

/-- A corpus entry: display text, optional category/subcategory
(`item.get(..., "Unknown")` supplies the default at use sites) and the
`preferencesJson` map. -/
structure Suggestion where
  text : String
  category : Option String
  subcategory : Option String
  preferencesJson : List (String × ℚ)
deriving DecidableEq

/-- The veto check: some preference entry has value `≤ -9.0` while the
context activation `context_vector.get(key, 0.0)` exceeds `0.1`. -/
def vetoed (context_vector : List (String × ℚ)) (prefs : List (String × ℚ)) : Bool :=
  prefs.any (fun kv => decide (kv.2 ≤ -9) && decide (fmGet context_vector kv.1 > 1/10))

/-- The group weight of a feature: the first group of `GROUP_WEIGHTS`
whose name followed by an underscore prefixes the feature name; the
documented default is 0.5. -/
def feature_weight (feat_name : String) : ℚ :=
  match GROUP_WEIGHTS.find? (fun gw => startswith feat_name (gw.1 ++ "_")) with
  | some gw => gw.2
  | none => 1/2

/-- The weighted dot product: preference entries whose feature is absent
from the context vector, or whose context activation is `≤ 0`, are
skipped. -/
def dot_score (context_vector : List (String × ℚ)) (prefs : List (String × ℚ)) : ℚ :=
  prefs.foldl (fun total kv =>
    match context_vector.lookup kv.1 with
    | none => total
    | some ctx_val =>
      if ctx_val ≤ 0 then total
      else total + feature_weight kv.1 * (kv.2 * ctx_val)) 0

/-- Descending order on scored items (`sort(key=lambda x: x[0], reverse=True)`). -/
def score_desc (a b : ℚ × Suggestion) : Prop := b.1 ≤ a.1

instance : DecidableRel score_desc := fun a b => inferInstanceAs (Decidable (b.1 ≤ a.1))

instance : IsTotal (ℚ × Suggestion) score_desc := ⟨fun a b => le_total b.1 a.1⟩

instance : IsTrans (ℚ × Suggestion) score_desc := ⟨fun _ _ _ h1 h2 => le_trans h2 h1⟩

/-- Source `SuggestionEngine.score`: drop vetoed items, attach the weighted dot
product, then sort descending (Python's stable sort, embedded as a stable
insertion sort). -/
def score (context_vector : List (String × ℚ)) (suggestions : List Suggestion) :
    List (ℚ × Suggestion) :=
  List.insertionSort score_desc
    ((suggestions.filter (fun item => !vetoed context_vector item.preferencesJson)).map
      (fun item => (dot_score context_vector item.preferencesJson, item)))

/-- The grouping key `f"{cat} > {sub}"` with "Unknown" defaults. -/
def group_key (item : Suggestion) : String :=
  item.category.getD "Unknown" ++ " > " ++ item.subcategory.getD "Unknown"

/-- Appending a scored item to its group's list, creating the group at
the end on first sight (Python dict insertion-order semantics). -/
def insertGrouped (g : List (String × List (ℚ × Suggestion))) (k : String)
    (p : ℚ × Suggestion) : List (String × List (ℚ × Suggestion)) :=
  match g with
  | [] => [(k, [p])]
  | (k', l) :: rest =>
    if k' = k then (k', l ++ [p]) :: rest else (k', l) :: insertGrouped rest k p

/-- The grouping loop of `get_top_by_subcategory`. -/
def group_by_key (scored : List (ℚ × Suggestion)) :
    List (String × List (ℚ × Suggestion)) :=
  scored.foldl (fun g p => insertGrouped g (group_key p.2) p) []

/-- Source `SuggestionEngine.get_top_by_subcategory`: score, group by
`"{category} > {subcategory}"`, then sort each group descending and take
the first `top_n`. -/
def get_top_by_subcategory (context_vector : List (String × ℚ))
    (suggestions : List Suggestion) (top_n : ℕ) :
    List (String × List (ℚ × Suggestion)) :=
  (group_by_key (score context_vector suggestions)).map
    (fun e => (e.1, (List.insertionSort score_desc e.2).take top_n))

lemma mem_score_iff (context_vector : List (String × ℚ)) (suggestions : List Suggestion)
    (p : ℚ × Suggestion) :
    p ∈ score context_vector suggestions ↔
      p.2 ∈ suggestions ∧ vetoed context_vector p.2.preferencesJson = false ∧
        p.1 = dot_score context_vector p.2.preferencesJson := by
  unfold score
  rw [(List.perm_insertionSort score_desc _).mem_iff, List.mem_map]
  constructor
  · rintro ⟨item, hitem, rfl⟩
    rw [List.mem_filter] at hitem
    exact ⟨hitem.1, by simpa using hitem.2, rfl⟩
  · rintro ⟨hmem, hveto, hp⟩
    refine ⟨p.2, List.mem_filter.mpr ⟨hmem, by simp [hveto]⟩, ?_⟩
    rw [← hp]

/-- C1: a suggestion is vetoed (its score never computed, the pair never
emitted by the scorer) exactly when some preference entry has value
`≤ -9.0` and context activation `> 0.1`; non-vetoed suggestions are
emitted with their dot-product score. In particular an entry
`("weather_rain", -10)` vetoes whenever the `weather_rain` activation
exceeds 0.1, and for the singleton preference map
`{"weather_rain": -10.0}` the veto happens exactly then. -/
theorem C1_veto_spec (context_vector : List (String × ℚ)) (corpus : List Suggestion)
    (s : Suggestion) (hs : s ∈ corpus) :
    (vetoed context_vector s.preferencesJson = true ↔
      ∃ kv ∈ s.preferencesJson, kv.2 ≤ -9 ∧ fmGet context_vector kv.1 > 1/10) ∧
    (vetoed context_vector s.preferencesJson = true →
      ∀ q : ℚ, (q, s) ∉ score context_vector corpus) ∧
    (vetoed context_vector s.preferencesJson = false →
      (dot_score context_vector s.preferencesJson, s) ∈ score context_vector corpus) ∧
    (("weather_rain", (-10 : ℚ)) ∈ s.preferencesJson →
      fmGet context_vector "weather_rain" > 1/10 →
      vetoed context_vector s.preferencesJson = true) ∧
    (s.preferencesJson = [("weather_rain", (-10 : ℚ))] →
      (vetoed context_vector s.preferencesJson = true ↔
        fmGet context_vector "weather_rain" > 1/10)) := by
  have hiff : vetoed context_vector s.preferencesJson = true ↔
      ∃ kv ∈ s.preferencesJson, kv.2 ≤ -9 ∧ fmGet context_vector kv.1 > 1/10 := by
    simp [vetoed, List.any_eq_true]
  refine ⟨hiff, ?_, ?_, ?_, ?_⟩
  · intro hv q hq
    rw [mem_score_iff] at hq
    rw [hq.2.1] at hv
    exact Bool.false_ne_true hv
  · intro hv
    exact (mem_score_iff context_vector corpus (dot_score context_vector s.preferencesJson, s)).mpr
      ⟨hs, hv, rfl⟩
  · intro hkv hact
    exact hiff.mpr ⟨("weather_rain", (-10 : ℚ)), hkv, by norm_num, hact⟩
  · intro hsingle
    rw [hiff, hsingle]
    constructor
    · rintro ⟨kv, hkv, _, hact⟩
      rw [List.mem_singleton] at hkv
      subst hkv
      exact hact
    · intro hact
      exact ⟨("weather_rain", (-10 : ℚ)), List.mem_singleton.mpr rfl, by norm_num, hact⟩

/-- C1 witness: a one-item corpus with the singleton rain veto, against a
context where `weather_rain` is fully active. -/
theorem C1_veto_spec_witness :
    (vetoed [("weather_rain", (1 : ℚ))]
        (Suggestion.mk "walk" (some "A") (some "B") [("weather_rain", (-10 : ℚ))]).preferencesJson = true ↔
      ∃ kv ∈ (Suggestion.mk "walk" (some "A") (some "B")
          [("weather_rain", (-10 : ℚ))]).preferencesJson,
        kv.2 ≤ -9 ∧ fmGet [("weather_rain", (1 : ℚ))] kv.1 > 1/10) ∧
    (vetoed [("weather_rain", (1 : ℚ))]
        (Suggestion.mk "walk" (some "A") (some "B") [("weather_rain", (-10 : ℚ))]).preferencesJson = true →
      ∀ q : ℚ, (q, Suggestion.mk "walk" (some "A") (some "B") [("weather_rain", (-10 : ℚ))]) ∉
        score [("weather_rain", (1 : ℚ))]
          [Suggestion.mk "walk" (some "A") (some "B") [("weather_rain", (-10 : ℚ))]]) ∧
    (vetoed [("weather_rain", (1 : ℚ))]
        (Suggestion.mk "walk" (some "A") (some "B") [("weather_rain", (-10 : ℚ))]).preferencesJson = false →
      (dot_score [("weather_rain", (1 : ℚ))]
          (Suggestion.mk "walk" (some "A") (some "B") [("weather_rain", (-10 : ℚ))]).preferencesJson,
        Suggestion.mk "walk" (some "A") (some "B") [("weather_rain", (-10 : ℚ))]) ∈
        score [("weather_rain", (1 : ℚ))]
          [Suggestion.mk "walk" (some "A") (some "B") [("weather_rain", (-10 : ℚ))]]) ∧
    (("weather_rain", (-10 : ℚ)) ∈ (Suggestion.mk "walk" (some "A") (some "B")
        [("weather_rain", (-10 : ℚ))]).preferencesJson →
      fmGet [("weather_rain", (1 : ℚ))] "weather_rain" > 1/10 →
      vetoed [("weather_rain", (1 : ℚ))]
        (Suggestion.mk "walk" (some "A") (some "B") [("weather_rain", (-10 : ℚ))]).preferencesJson = true) ∧
    ((Suggestion.mk "walk" (some "A") (some "B")
        [("weather_rain", (-10 : ℚ))]).preferencesJson = [("weather_rain", (-10 : ℚ))] →
      (vetoed [("weather_rain", (1 : ℚ))]
          (Suggestion.mk "walk" (some "A") (some "B") [("weather_rain", (-10 : ℚ))]).preferencesJson = true ↔
        fmGet [("weather_rain", (1 : ℚ))] "weather_rain" > 1/10)) :=
  C1_veto_spec [("weather_rain", (1 : ℚ))]
    [Suggestion.mk "walk" (some "A") (some "B") [("weather_rain", (-10 : ℚ))]]
    (Suggestion.mk "walk" (some "A") (some "B") [("weather_rain", (-10 : ℚ))])
    (List.mem_singleton.mpr rfl)

lemma lookup_insertGrouped_same (g : List (String × List (ℚ × Suggestion))) (k : String)
    (p : ℚ × Suggestion) :
    (insertGrouped g k p).lookup k = some (((g.lookup k).getD []) ++ [p]) := by
  induction g with
  | nil => simp [insertGrouped, List.lookup_cons]
  | cons e rest ih =>
    obtain ⟨k', l⟩ := e
    by_cases h : k' = k
    · subst h
      simp [insertGrouped, List.lookup_cons]
    · have hb : (k == k') = false := beq_eq_false_iff_ne.mpr (Ne.symm h)
      simp [insertGrouped, h, List.lookup_cons, hb, ih]

lemma lookup_insertGrouped_other (g : List (String × List (ℚ × Suggestion)))
    (k k' : String) (p : ℚ × Suggestion) (h : k' ≠ k) :
    (insertGrouped g k p).lookup k' = g.lookup k' := by
  induction g with
  | nil => simp [insertGrouped, List.lookup_cons, beq_eq_false_iff_ne.mpr h]
  | cons e rest ih =>
    obtain ⟨k'', l⟩ := e
    by_cases h2 : k'' = k
    · subst h2
      simp [insertGrouped, List.lookup_cons, beq_eq_false_iff_ne.mpr h]
    · simp [insertGrouped, h2, List.lookup_cons, ih]

lemma foldl_insertGrouped_getD (scored : List (ℚ × Suggestion))
    (g : List (String × List (ℚ × Suggestion))) (k : String) :
    ((scored.foldl (fun acc p => insertGrouped acc (group_key p.2) p) g).lookup k).getD [] =
      ((g.lookup k).getD []) ++ scored.filter (fun p => group_key p.2 == k) := by
  induction scored generalizing g with
  | nil => simp
  | cons p rest ih =>
    rw [List.foldl_cons, ih]
    by_cases h : group_key p.2 = k
    · subst h
      rw [lookup_insertGrouped_same]
      simp [List.filter_cons]
    · rw [lookup_insertGrouped_other _ _ _ _ (Ne.symm h)]
      simp [List.filter_cons, h]

lemma group_by_key_lookup_getD (scored : List (ℚ × Suggestion)) (k : String) :
    ((group_by_key scored).lookup k).getD [] =
      scored.filter (fun p => group_key p.2 == k) := by
  unfold group_by_key
  rw [foldl_insertGrouped_getD]
  simp

lemma mem_keys_insertGrouped {g : List (String × List (ℚ × Suggestion))}
    {k k' : String} {p : ℚ × Suggestion} :
    k' ∈ (insertGrouped g k p).map Prod.fst ↔ k' ∈ g.map Prod.fst ∨ k' = k := by
  induction g with
  | nil => simp [insertGrouped]
  | cons e rest ih =>
    obtain ⟨k'', l⟩ := e
    simp only [insertGrouped]
    by_cases h : k'' = k
    · rw [if_pos h]
      subst h
      simp only [List.map_cons, List.mem_cons]
      tauto
    · rw [if_neg h]
      simp only [List.map_cons, List.mem_cons, ih]
      tauto

lemma keys_nodup_insertGrouped {g : List (String × List (ℚ × Suggestion))}
    (h : (g.map Prod.fst).Nodup) (k : String) (p : ℚ × Suggestion) :
    ((insertGrouped g k p).map Prod.fst).Nodup := by
  induction g with
  | nil => simp [insertGrouped]
  | cons e rest ih =>
    obtain ⟨k'', l⟩ := e
    simp only [List.map_cons, List.nodup_cons] at h
    simp only [insertGrouped]
    by_cases h2 : k'' = k
    · rw [if_pos h2]
      simp only [List.map_cons, List.nodup_cons]
      exact ⟨h.1, h.2⟩
    · rw [if_neg h2]
      simp only [List.map_cons, List.nodup_cons]
      refine ⟨?_, ih h.2⟩
      rw [mem_keys_insertGrouped]
      exact not_or.mpr ⟨h.1, h2⟩

lemma group_by_key_keys_nodup (scored : List (ℚ × Suggestion)) :
    ((group_by_key scored).map Prod.fst).Nodup := by
  suffices h : ∀ g : List (String × List (ℚ × Suggestion)), (g.map Prod.fst).Nodup →
      ((scored.foldl (fun acc p => insertGrouped acc (group_key p.2) p) g).map
        Prod.fst).Nodup by
    exact h [] (by simp)
  induction scored with
  | nil => intro g hg; simpa using hg
  | cons p rest ih =>
    intro g hg
    rw [List.foldl_cons]
    exact ih _ (keys_nodup_insertGrouped hg _ _)

lemma lookup_of_mem_nodup {β : Type} {g : List (String × β)}
    (hnd : (g.map Prod.fst).Nodup) {e : String × β} (he : e ∈ g) :
    g.lookup e.1 = some e.2 := by
  induction g with
  | nil => cases he
  | cons a rest ih =>
    simp only [List.map_cons, List.nodup_cons] at hnd
    rcases List.mem_cons.mp he with rfl | hmem
    · obtain ⟨k', v⟩ := e
      simp [List.lookup_cons]
    · have hne : e.1 ≠ a.1 := by
        intro hcontra
        exact hnd.1 (hcontra ▸ List.mem_map_of_mem Prod.fst hmem)
      obtain ⟨k', v⟩ := a
      simp only [List.lookup_cons, beq_eq_false_iff_ne.mpr hne]
      exact ih hnd.2 hmem

lemma mem_of_lookup_eq_some {β : Type} {g : List (String × β)} {k : String} {v : β}
    (h : g.lookup k = some v) : (k, v) ∈ g := by
  induction g with
  | nil => simp [List.lookup] at h
  | cons a rest ih =>
    obtain ⟨k', v'⟩ := a
    rw [List.lookup_cons] at h
    cases hb : (k == k') with
    | true =>
      simp only [hb] at h
      obtain rfl := Option.some.inj h
      have hk : k = k' := by simpa using hb
      subst hk
      exact List.mem_cons_self _ _
    | false =>
      simp only [hb] at h
      exact List.mem_cons_of_mem _ (ih h)

/-- C2: every entry of the grouped result holds exactly the group's
scored suggestions sorted descending and truncated to `top_n`: the list
is descending, no longer than `top_n`, contains only scored suggestions
of that group, and any scored group member left out scores no higher than
any member kept; moreover every scored suggestion's group appears. -/
theorem C2_rank_by_subcategory (context_vector : List (String × ℚ))
    (suggestions : List Suggestion) (top_n : ℕ) :
    (∀ k l, (k, l) ∈ get_top_by_subcategory context_vector suggestions top_n →
      l = (List.insertionSort score_desc ((score context_vector suggestions).filter
            (fun p => group_key p.2 == k))).take top_n ∧
      List.Sorted score_desc l ∧
      l.length ≤ top_n ∧
      (∀ p ∈ l, group_key p.2 = k ∧ p ∈ score context_vector suggestions) ∧
      (∀ p ∈ l, ∀ q ∈ score context_vector suggestions, group_key q.2 = k → q ∉ l →
        q.1 ≤ p.1)) ∧
    (∀ p ∈ score context_vector suggestions,
      ∃ l, (group_key p.2, l) ∈ get_top_by_subcategory context_vector suggestions top_n) := by
  constructor
  · intro k l hmem
    rw [get_top_by_subcategory, List.mem_map] at hmem
    obtain ⟨e, he, heq⟩ := hmem
    injection heq with hk hl
    subst hk
    have hlk : (group_by_key (score context_vector suggestions)).lookup e.1 = some e.2 :=
      lookup_of_mem_nodup (group_by_key_keys_nodup _) he
    have hchar := group_by_key_lookup_getD (score context_vector suggestions) e.1
    rw [hlk] at hchar
    simp only [Option.getD_some] at hchar
    rw [hchar] at hl
    subst hl
    set fl := (score context_vector suggestions).filter (fun p => group_key p.2 == e.1)
      with hfl
    have hsorted := List.sorted_insertionSort score_desc fl
    have hperm := List.perm_insertionSort score_desc fl
    set sl := List.insertionSort score_desc fl with hsl
    refine ⟨rfl, ?_, List.length_take_le _ _, ?_, ?_⟩
    · exact hsorted.sublist (List.take_sublist _ _)
    · intro p hp
      have hpsl : p ∈ sl := List.mem_of_mem_take hp
      have hpfl : p ∈ fl := hperm.mem_iff.mp hpsl
      rw [hfl, List.mem_filter] at hpfl
      exact ⟨by simpa using hpfl.2, hpfl.1⟩
    · intro p hp q hq hqk hql
      have hqfl : q ∈ fl := by
        rw [hfl, List.mem_filter]
        exact ⟨hq, by simp [hqk]⟩
      have hqsl : q ∈ sl := hperm.mem_iff.mpr hqfl
      rw [← List.take_append_drop top_n sl] at hqsl
      rcases List.mem_append.mp hqsl with hcase | hcase
      · exact absurd hcase hql
      · have hpair : List.Pairwise score_desc (sl.take top_n ++ sl.drop top_n) := by
          rw [List.take_append_drop]
          exact hsorted
        exact (List.pairwise_append.mp hpair).2.2 p hp q hcase
  · intro p hp
    have hchar := group_by_key_lookup_getD (score context_vector suggestions) (group_key p.2)
    cases hopt : (group_by_key (score context_vector suggestions)).lookup (group_key p.2) with
    | none =>
      rw [hopt] at hchar
      have hpfl : p ∈ (score context_vector suggestions).filter
          (fun q => group_key q.2 == group_key p.2) :=
        List.mem_filter.mpr ⟨hp, by simp⟩
      rw [← hchar] at hpfl
      cases hpfl
    | some gl =>
      refine ⟨(List.insertionSort score_desc gl).take top_n, ?_⟩
      rw [get_top_by_subcategory]
      exact List.mem_map_of_mem _ (mem_of_lookup_eq_some hopt)

/-- C2 witness: a one-item corpus in group "A > B" with `top_n = 3`. -/
theorem C2_rank_by_subcategory_witness :
    (∀ k l, (k, l) ∈ get_top_by_subcategory []
        [Suggestion.mk "walk" (some "A") (some "B") []] 3 →
      l = (List.insertionSort score_desc
            ((score [] [Suggestion.mk "walk" (some "A") (some "B") []]).filter
              (fun p => group_key p.2 == k))).take 3 ∧
      List.Sorted score_desc l ∧
      l.length ≤ 3 ∧
      (∀ p ∈ l, group_key p.2 = k ∧
        p ∈ score [] [Suggestion.mk "walk" (some "A") (some "B") []]) ∧
      (∀ p ∈ l, ∀ q ∈ score [] [Suggestion.mk "walk" (some "A") (some "B") []],
        group_key q.2 = k → q ∉ l → q.1 ≤ p.1)) ∧
    (∀ p ∈ score [] [Suggestion.mk "walk" (some "A") (some "B") []],
      ∃ l, (group_key p.2, l) ∈ get_top_by_subcategory []
        [Suggestion.mk "walk" (some "A") (some "B") []] 3) :=
  C2_rank_by_subcategory [] [Suggestion.mk "walk" (some "A") (some "B") []] 3

end Engine
